import Mathlib

/-!
Verification of `rust-switchable-transport-example` (`src/main.rs`).

The program is embedded shallowly:

* The echo connection handler (`echo`) becomes a pure function over a trace
  of stream events (the results that `read` and `write_all` return), with the
  2048-byte buffer carried as explicit state (bytes are modelled as `Nat`).
* The server accept loop (`serve_echo`) becomes a function over a list of
  accept results, producing the list of observable server actions and the
  function's return value.
* The client probe (`send_hello`) becomes a function from an environment
  (connect / write results and the bytes the peer delivers) to the trace of
  client actions and the probe's success.
* The TLS transport (`TlsTransport.new` / `bind` / `accept` / `connect`)
  becomes functions over an oracle environment describing what the file
  system, the TLS library and the TCP layer return; `unwrap` on a missing
  value is modelled by the distinguished outcome `Outcome.panic`.
* `run` and `main` become the same string dispatch the source performs,
  over abstract behaviours for the serve/client branches.
-/

/-! ## Echo connection handler (`echo` in `src/main.rs`, lines 131–141) -/

/-- Size of the stack buffer `let mut buf = [0u8; 2048]`. -/
def BUF_SIZE : Nat := 2048

/-- One result delivered by the stream to the echo loop: the outcome of a
`conn.read(&mut buf)` call (`readOk chunk` = `Ok(c)` with `chunk` the `c`
bytes placed at the front of `buf`; `readErr` = `Err(_)`), or of a
`conn.write_all(&buf)` call (`writeOk` = `Ok(())`, `writeErr` = `Err(_)`). -/
inductive StreamEvent
  | readOk (chunk : List Nat)
  | readErr
  | writeOk
  | writeErr
deriving DecidableEq, Repr

/-- Result of the `echo` function: `ok` is `Ok(())` after a zero-byte read,
`ioError` is an `Err` propagated by `?` from a read or write, and `stuck`
marks an event trace that does not describe a complete execution (the trace
ran out, or offered an event of the wrong kind, or an impossible over-long
read). -/
inductive EchoResult
  | ok
  | ioError
  | stuck
deriving DecidableEq, Repr

/-- Effect of `conn.read(&mut buf)` returning `Ok(chunk.length)`: the read
bytes overwrite the front of `buf`, the rest of the buffer keeps its prior
contents. -/
def readInto (buf chunk : List Nat) : List Nat :=
  chunk ++ buf.drop chunk.length

/-- The echo loop of `echo`: read; if `c == 0` break with `Ok(())`;
otherwise write the ENTIRE buffer (`conn.write_all(&buf)`) and loop.
Returns the concatenation of all bytes written to the peer and the
function's result. -/
def echoLoop : List Nat → List StreamEvent → List Nat × EchoResult
  | _, [] => ([], .stuck)
  | _, .readErr :: _ => ([], .ioError)
  | _, .writeOk :: _ => ([], .stuck)
  | _, .writeErr :: _ => ([], .stuck)
  | buf, .readOk chunk :: rest =>
    if chunk.length = 0 then ([], .ok)
    else if BUF_SIZE < chunk.length then ([], .stuck)
    else
      match rest with
      | .writeOk :: rest2 =>
        (readInto buf chunk ++ (echoLoop (readInto buf chunk) rest2).1,
         (echoLoop (readInto buf chunk) rest2).2)
      | .writeErr :: _ => ([], .ioError)
      | _ => ([], .stuck)

/-- `echo`: the loop started on the zero-initialised buffer `[0u8; 2048]`. -/
def echo (events : List StreamEvent) : List Nat × EchoResult :=
  echoLoop (List.replicate BUF_SIZE 0) events

/-- The bytes of the fixed greeting `"hello"` sent by the client probe. -/
def helloBytes : List Nat := [104, 101, 108, 108, 111]

theorem echoLoop_step (buf chunk : List Nat) (rest : List StreamEvent)
    (h0 : chunk.length ≠ 0) (hle : ¬ BUF_SIZE < chunk.length) :
    echoLoop buf (.readOk chunk :: .writeOk :: rest)
      = (readInto buf chunk ++ (echoLoop (readInto buf chunk) rest).1,
         (echoLoop (readInto buf chunk) rest).2) := by
  simp [echoLoop, h0, hle]

theorem readInto_length (buf chunk : List Nat) (hle : chunk.length ≤ buf.length) :
    (readInto buf chunk).length = buf.length := by
  simp [readInto]
  omega

theorem echoLoop_zero_read (buf : List Nat) (rest : List StreamEvent) :
    echoLoop buf (.readOk [] :: rest) = ([], .ok) := by
  rw [echoLoop.eq_def]
  simp

/-- C1: whenever a read returns `N > 0` bytes (and the following write
succeeds), the echo handler writes the ENTIRE buffer back — a block of
exactly `BUF_SIZE = 2048` bytes whose first `N` bytes are the bytes read —
not only the `N` bytes read; in particular a client that sends exactly the
5 bytes "hello" observes back a 2048-byte block whose first 5 bytes are
"hello" and whose remaining 2043 bytes are the zeroes the buffer started
with. -/
theorem echo_writes_entire_buffer :
    (∀ (buf chunk : List Nat) (rest : List StreamEvent),
        buf.length = BUF_SIZE → 0 < chunk.length → chunk.length ≤ BUF_SIZE →
        (echoLoop buf (.readOk chunk :: .writeOk :: rest)).1
            = readInto buf chunk ++ (echoLoop (readInto buf chunk) rest).1
          ∧ (readInto buf chunk).length = BUF_SIZE
          ∧ (readInto buf chunk).take chunk.length = chunk)
    ∧ echo [.readOk helloBytes, .writeOk, .readOk []]
        = (helloBytes ++ List.replicate (BUF_SIZE - 5) 0, .ok) := by
  constructor
  · intro buf chunk rest hb h0 hle
    refine ⟨?_, ?_, ?_⟩
    · rw [echoLoop_step buf chunk rest (Nat.pos_iff_ne_zero.mp h0) (Nat.not_lt.mpr hle)]
    · rw [readInto_length buf chunk (hb ▸ hle), hb]
    · simp only [readInto, List.append_assoc]
      exact List.take_left chunk _
  · show echoLoop (List.replicate BUF_SIZE 0)
        [.readOk helloBytes, .writeOk, .readOk []] = _
    rw [echoLoop_step _ _ _ (by decide) (by decide), echoLoop_zero_read]
    simp only [List.append_nil, readInto, List.drop_replicate]
    rfl

/-- Closed instance of `echo_writes_entire_buffer`: the general step law at
the concrete first "hello" iteration. -/
theorem echo_writes_entire_buffer_witness :
    (echoLoop (List.replicate BUF_SIZE 0) (.readOk helloBytes :: .writeOk :: [])).1
        = readInto (List.replicate BUF_SIZE 0) helloBytes
            ++ (echoLoop (readInto (List.replicate BUF_SIZE 0) helloBytes) []).1
      ∧ (readInto (List.replicate BUF_SIZE 0) helloBytes).length = BUF_SIZE
      ∧ (readInto (List.replicate BUF_SIZE 0) helloBytes).take helloBytes.length
          = helloBytes :=
  echo_writes_entire_buffer.1 (List.replicate BUF_SIZE 0) helloBytes []
    (by simp) (by decide) (by decide)

/-- C2: in any iteration in which the server actually read the `N` bytes
`chunk` (`1 ≤ N ≤ 2048`), the first `N` bytes of the echo response written
in that step equal exactly those `N` bytes. -/
theorem echo_first_bytes_match (buf chunk : List Nat) (rest : List StreamEvent)
    (h1 : 1 ≤ chunk.length) (h2 : chunk.length ≤ BUF_SIZE) :
    ((echoLoop buf (.readOk chunk :: .writeOk :: rest)).1).take chunk.length
      = chunk := by
  rw [echoLoop_step buf chunk rest (by omega) (Nat.not_lt.mpr h2)]
  rw [readInto, List.append_assoc]
  exact List.take_left chunk _

/-- Closed instance of `echo_first_bytes_match` at the "hello" payload. -/
theorem echo_first_bytes_match_witness :
    ((echoLoop (List.replicate BUF_SIZE 0)
        (.readOk helloBytes :: .writeOk :: [])).1).take helloBytes.length
      = helloBytes :=
  echo_first_bytes_match (List.replicate BUF_SIZE 0) helloBytes []
    (by decide) (by decide)

/-- C6: a read that returns zero bytes (peer closed cleanly) stops the loop
at once: nothing further is written and `echo` returns success, whatever
events might have followed; in particular a client that sends no bytes and
then closes receives no data and a clean success. -/
theorem echo_zero_read_clean_close :
    (∀ (buf : List Nat) (rest : List StreamEvent),
        echoLoop buf (.readOk [] :: rest) = ([], .ok))
    ∧ echo [.readOk []] = ([], .ok) := by
  exact ⟨echoLoop_zero_read, echoLoop_zero_read _ []⟩

/-! ## Server loop (`serve_echo` in `src/main.rs`, lines 143–156) -/

/-- Result of one `transport.accept(&l).await` call in the
`while let Ok((conn, addr)) = ...` loop: a fresh connection (identified by a
numeric id), or an `Err` carrying an error value `e`. -/
inductive AcceptResult
  | conn (id : Nat)
  | err (e : Nat)
deriving DecidableEq, Repr

/-- Observable actions of the server: the initial `bind`, each successfully
accepted connection, each handler dispatched with `tokio::spawn`, and the
accept call whose `Err` ends the `while let` loop. -/
inductive ServerAction
  | bindTo (addr : String)
  | accepted (id : Nat)
  | dispatched (id : Nat)
  | acceptFailed
deriving DecidableEq, Repr

/-- Return value of `serve_echo`: `bindFailed` is the `?`-propagated bind
error, `ok` is `Ok(())` (reached only when an accept returns `Err`), and
`running` marks a finite accept trace that was exhausted with the loop
still accepting. -/
inductive ServeOutcome
  | bindFailed
  | running
  | ok
deriving DecidableEq, Repr

/-- The address literal `String::from("0.0.0.0:2334")` that `serve_echo`
binds. -/
def SERVE_ADDR : String := "0.0.0.0:2334"

/-- The `while let Ok((conn, addr)) = transport.accept(&l).await` loop:
each accepted connection is logged and dispatched to `echo` via
`tokio::spawn`, whose result is discarded (`let _ = echo::<T>(conn).await`,
modelled by the ignored `hr` oracle); the first `Err` ends the loop.
Returns the trace of actions and whether the loop terminated. -/
def serveLoop (hr : Nat → Bool) : List AcceptResult → List ServerAction × Bool
  | [] => ([], false)
  | .err _ :: _ => ([.acceptFailed], true)
  | .conn c :: rest =>
    let _discarded := hr c
    (.accepted c :: .dispatched c :: (serveLoop hr rest).1, (serveLoop hr rest).2)

/-- `serve_echo`: bind `0.0.0.0:2334` (fatal on failure, via
`.with_context(.. "Failed to bind")?`), then run the accept loop; when the
loop ends the function returns `Ok(())`. -/
def serve_echo (bindRes : Except Nat Unit) (hr : Nat → Bool)
    (accepts : List AcceptResult) : List ServerAction × ServeOutcome :=
  match bindRes with
  | .error _ => ([.bindTo SERVE_ADDR], .bindFailed)
  | .ok _ =>
    (.bindTo SERVE_ADDR :: (serveLoop hr accepts).1,
     if (serveLoop hr accepts).2 then .ok else .running)

/-- Trace produced by a run of consecutive successful accepts. -/
def connTrace : List Nat → List ServerAction
  | [] => []
  | c :: rest => .accepted c :: .dispatched c :: connTrace rest

theorem serveLoop_nil (hr : Nat → Bool) : serveLoop hr [] = ([], false) := rfl

theorem serveLoop_err (hr : Nat → Bool) (e : Nat) (rest : List AcceptResult) :
    serveLoop hr (.err e :: rest) = ([.acceptFailed], true) := rfl

theorem serveLoop_conn (hr : Nat → Bool) (c : Nat) (rest : List AcceptResult) :
    serveLoop hr (.conn c :: rest)
      = (.accepted c :: .dispatched c :: (serveLoop hr rest).1,
         (serveLoop hr rest).2) := rfl

theorem serveLoop_conns (hr : Nat → Bool) (pre : List Nat) (tail : List AcceptResult) :
    serveLoop hr (pre.map .conn ++ tail)
      = (connTrace pre ++ (serveLoop hr tail).1, (serveLoop hr tail).2) := by
  induction pre with
  | nil => simp [connTrace]
  | cons c rest ih => simp [serveLoop_conn, connTrace, ih]

/-- C3: an `Err` from `accept` ends the whole server loop: the run's trace
is exactly the bind, the connections accepted and dispatched before the
failure, and the one failing accept — whatever `post` would have followed
is never accepted or dispatched — and `serve_echo` returns. -/
theorem serve_echo_stops_on_accept_error (pre : List Nat) (e : Nat)
    (post : List AcceptResult) (hr : Nat → Bool) :
    serve_echo (.ok ()) hr (pre.map .conn ++ .err e :: post)
      = (.bindTo SERVE_ADDR :: (connTrace pre ++ [.acceptFailed]), .ok) := by
  simp [serve_echo, serveLoop_conns, serveLoop_err]

theorem serveLoop_hr_irrelevant (hr₁ hr₂ : Nat → Bool) (a : List AcceptResult) :
    serveLoop hr₁ a = serveLoop hr₂ a := by
  induction a with
  | nil => rfl
  | cons h t ih =>
    cases h with
    | conn c => rw [serveLoop_conn, serveLoop_conn, ih]
    | err e => rw [serveLoop_err, serveLoop_err]

theorem serveLoop_err_snd (hr : Nat → Bool) (pre : List AcceptResult) (e : Nat)
    (post : List AcceptResult) :
    (serveLoop hr (pre ++ .err e :: post)).2 = true := by
  induction pre with
  | nil => simp [serveLoop_err]
  | cons h t ih =>
    cases h with
    | conn c => rw [List.cons_append, serveLoop_conn]; exact ih
    | err e2 => rw [List.cons_append, serveLoop_err]

theorem serveLoop_err_value_irrelevant (hr : Nat → Bool) (pre : List AcceptResult)
    (e₁ e₂ : Nat) (post : List AcceptResult) :
    serveLoop hr (pre ++ .err e₁ :: post) = serveLoop hr (pre ++ .err e₂ :: post) := by
  induction pre with
  | nil => rw [List.nil_append, List.nil_append, serveLoop_err, serveLoop_err]
  | cons h t ih =>
    cases h with
    | conn c =>
      rw [List.cons_append, List.cons_append, serveLoop_conn, serveLoop_conn, ih]
    | err e3 => rw [List.cons_append, List.cons_append, serveLoop_err, serveLoop_err]

/-- C10: the server loop discards results: the outcome of every dispatched
echo handler is ignored (`let _ = echo(conn)`), the error value carried by
the failing accept is dropped, and after an accept error `serve_echo`
returns plain success, indistinguishable from a normal exit. -/
theorem serve_echo_discards_results :
    (∀ (b : Except Nat Unit) (accepts : List AcceptResult) (hr₁ hr₂ : Nat → Bool),
        serve_echo b hr₁ accepts = serve_echo b hr₂ accepts)
    ∧ (∀ (pre : List AcceptResult) (e₁ e₂ : Nat) (post : List AcceptResult)
          (hr : Nat → Bool),
        serve_echo (.ok ()) hr (pre ++ .err e₁ :: post)
          = serve_echo (.ok ()) hr (pre ++ .err e₂ :: post))
    ∧ (∀ (pre : List AcceptResult) (e : Nat) (post : List AcceptResult)
          (hr : Nat → Bool),
        (serve_echo (.ok ()) hr (pre ++ .err e :: post)).2 = .ok) := by
  refine ⟨?_, ?_, ?_⟩
  · intro b accepts hr₁ hr₂
    cases b with
    | error e => rfl
    | ok u => simp only [serve_echo, serveLoop_hr_irrelevant hr₁ hr₂]
  · intro pre e₁ e₂ post hr
    simp only [serve_echo, serveLoop_err_value_irrelevant hr pre e₁ e₂ post]
  · intro pre e post hr
    simp [serve_echo, serveLoop_err_snd]

/-! ## Client probe (`send_hello` in `src/main.rs`, lines 123–129) -/

/-- The address literal `String::from("127.0.0.1:2334")` the probe connects
to. -/
def CLIENT_ADDR : String := "127.0.0.1:2334"

/-- Observable actions of the client probe: a connection attempt to an
address, the bytes handed to `write_all`, and the bytes relayed by
`io::copy` to the process standard output. -/
inductive ClientAction
  | connectTo (addr : String)
  | sent (bytes : List Nat)
  | stdoutput (bytes : List Nat)
deriving DecidableEq, Repr

/-- Is this action a connection attempt? -/
def ClientAction.isConnect : ClientAction → Bool
  | .connectTo _ => true
  | _ => false

/-- What the outside world returns to `send_hello`: the result of
`transport.connect(..)`, the result of `conn.write_all("hello")`, the bytes
the peer delivers afterwards (all relayed by `io::copy`), and whether the
stream then ended in a clean close (`true`) or an I/O error (`false`). -/
structure ClientEnv where
  connectRes : Except Nat Nat
  writeRes : Except Nat Unit
  recvBytes : List Nat
  cleanClose : Bool

/-- `send_hello`: connect to `127.0.0.1:2334`, write the greeting `"hello"`,
then `io::copy(&mut conn, &mut io::stdout())` until end of stream; returns
the action trace and whether the probe returned `Ok(())`. -/
def send_hello (env : ClientEnv) : List ClientAction × Bool :=
  match env.connectRes with
  | .error _ => ([.connectTo CLIENT_ADDR], false)
  | .ok _ =>
    match env.writeRes with
    | .error _ => ([.connectTo CLIENT_ADDR, .sent helloBytes], false)
    | .ok _ =>
      ([.connectTo CLIENT_ADDR, .sent helloBytes, .stdoutput env.recvBytes],
       env.cleanClose)

/-- C7: the client probe connects exactly once, and only to
`127.0.0.1:2334`; when the connect and the greeting write succeed it sends
exactly the greeting `"hello"` and relays the bytes received from the peer
unmodified to standard output, returning success precisely on a clean
close; and the server always binds `0.0.0.0:2334` — its first action on
every run. -/
theorem client_probe_behaviour :
    (∀ env : ClientEnv,
        (send_hello env).1.filter ClientAction.isConnect
          = [.connectTo CLIENT_ADDR])
    ∧ (∀ (c : Nat) (u : Unit) (recv : List Nat) (cc : Bool),
        send_hello ⟨.ok c, .ok u, recv, cc⟩
          = ([.connectTo CLIENT_ADDR, .sent helloBytes, .stdoutput recv], cc))
    ∧ (∀ (b : Except Nat Unit) (hr : Nat → Bool) (accepts : List AcceptResult),
        (serve_echo b hr accepts).1.head? = some (.bindTo SERVE_ADDR))
    ∧ CLIENT_ADDR = "127.0.0.1:2334" ∧ SERVE_ADDR = "0.0.0.0:2334" := by
  refine ⟨?_, ?_, ?_, rfl, rfl⟩
  · intro env
    rcases env with ⟨cr, wr, recv, cc⟩
    cases cr <;> cases wr <;> simp [send_hello, ClientAction.isConnect]
  · intro c u recv cc
    rfl
  · intro b hr accepts
    cases b <;> simp [serve_echo]

/-! ## TLS transport (`TlsTransport` in `src/main.rs`, lines 56–121) -/

/-- `TlsConfig` (`src/main.rs`, lines 56–61): all fields optional. -/
structure TlsConfig where
  trusted_root : Option String
  pkcs12 : Option String
  pkcs12_password : Option String
  hostname : Option String
deriving DecidableEq, Repr

/-- `TlsTransport` (`src/main.rs`, lines 63–66): the configuration and the
connector built by `TlsTransport::new` when a trusted root is configured
(connectors, certificates, identities, listeners, acceptors and streams are
identified by numeric handles). -/
structure TlsTransport where
  config : TlsConfig
  connector : Option Nat
deriving DecidableEq, Repr

/-- Where an error returned (not panicked) by the TLS transport arose,
after the call site of the `?` that propagated it. -/
inductive TlsError
  | trustRead (e : Nat)
  | trustParse (e : Nat)
  | connectorBuild (e : Nat)
  | identityRead (e : Nat)
  | identityError (e : Nat)
  | bindError (e : Nat)
  | acceptError (e : Nat)
  | handshakeError (e : Nat)
  | connectError (e : Nat)
  | verificationError (e : Nat)
deriving DecidableEq, Repr

/-- Outcome of a fallible Rust call in the embedding: a returned value, a
returned `Err`, or a panic (`unwrap` on `None` / `Err`). -/
inductive Outcome (α : Type)
  | ok (a : α)
  | err (e : TlsError)
  | panic
deriving DecidableEq, Repr

/-- Does this outcome return an `Err` value to the caller? -/
def Outcome.isErr {α : Type} : Outcome α → Bool
  | .err _ => true
  | _ => false

/-- Oracle for everything the TLS transport calls into: the file system,
`native_tls`, and the TCP layer. Each operation either succeeds with a
numeric handle or fails with a numeric error value. -/
structure TlsEnv where
  readToString : String → Except Nat (List Nat)
  certFromPem : List Nat → Except Nat Nat
  builderBuild : Nat → Except Nat Nat
  fsRead : String → Except Nat (List Nat)
  identityFromPkcs12 : List Nat → String → Except Nat Nat
  tcpBind : String → Except Nat Nat
  acceptorNew : Nat → Except Nat Nat
  tcpAccept : Nat → Except Nat (Nat × Nat)
  tlsAccept : Nat → Nat → Except Nat Nat
  tcpConnect : String → Except Nat Nat
  tlsHandshake : Nat → String → Nat → Except Nat Nat

/-- `TlsTransport::new`: when a trusted root path is configured, read it,
parse the PEM certificate, and build the connector (each step propagating
failure with `?`); otherwise the connector is `None`. -/
def TlsTransport.new (env : TlsEnv) (config : TlsConfig) : Outcome TlsTransport :=
  match config.trusted_root with
  | some path =>
    match env.readToString path with
    | .error e => .err (.trustRead e)
    | .ok s =>
      match env.certFromPem s with
      | .error e => .err (.trustParse e)
      | .ok cert =>
        match env.builderBuild cert with
        | .error e => .err (.connectorBuild e)
        | .ok conn => .ok ⟨config, some conn⟩
  | none => .ok ⟨config, none⟩

/-- `TlsTransport::bind`: `Identity::from_pkcs12(&fs::read(pkcs12.unwrap()),
pkcs12_password.unwrap())?`, then `TcpListener::bind(addr)?`, then
`TlsAcceptor::new(ident).unwrap()`. The two `unwrap`s on the config fields
and the one on the acceptor are panics, not returned errors. -/
def TlsTransport.bind (env : TlsEnv) (t : TlsTransport) (addr : String) :
    Outcome (Nat × Nat) :=
  match t.config.pkcs12 with
  | none => .panic
  | some path =>
    match env.fsRead path with
    | .error e => .err (.identityRead e)
    | .ok bytes =>
      match t.config.pkcs12_password with
      | none => .panic
      | some pw =>
        match env.identityFromPkcs12 bytes pw with
        | .error e => .err (.identityError e)
        | .ok ident =>
          match env.tcpBind addr with
          | .error e => .err (.bindError e)
          | .ok l =>
            match env.acceptorNew ident with
            | .error _ => .panic
            | .ok a => .ok (l, a)

/-- `TlsTransport::accept`: accept a TCP connection on the listener, then
run the server-side handshake with the acceptor; both failures are
propagated with `?`. The transport's credentials are never consulted. -/
def TlsTransport.accept (env : TlsEnv) (t : TlsTransport) (a : Nat × Nat) :
    Outcome (Nat × Nat) :=
  match env.tcpAccept a.1 with
  | .error e => .err (.acceptError e)
  | .ok (conn, peer) =>
    match env.tlsAccept a.2 conn with
    | .error e => .err (.handshakeError e)
    | .ok s => .ok (s, peer)

/-- The server name the client-side handshake verifies against:
`self.config.hostname.as_ref().unwrap_or(&addr)` — the configured hostname
override if present, otherwise the literal address string. -/
def TlsTransport.connectDomain (t : TlsTransport) (addr : String) : String :=
  t.config.hostname.getD addr

/-- `TlsTransport::connect`: `TcpStream::connect(addr)?`, then
`self.connector.as_ref().unwrap()` (a panic when no trusted root was
configured), then the client handshake against `connectDomain`. -/
def TlsTransport.connect (env : TlsEnv) (t : TlsTransport) (addr : String) :
    Outcome Nat :=
  match env.tcpConnect addr with
  | .error e => .err (.connectError e)
  | .ok conn =>
    match t.connector with
    | none => .panic
    | some c =>
      match env.tlsHandshake c (TlsTransport.connectDomain t addr) conn with
      | .error e => .err (.verificationError e)
      | .ok s => .ok s

/-- An oracle in which every external call succeeds (with handle `0` and
empty file contents). -/
def okEnv : TlsEnv where
  readToString := fun _ => .ok []
  certFromPem := fun _ => .ok 0
  builderBuild := fun _ => .ok 0
  fsRead := fun _ => .ok []
  identityFromPkcs12 := fun _ _ => .ok 0
  tcpBind := fun _ => .ok 0
  acceptorNew := fun _ => .ok 0
  tcpAccept := fun _ => .ok (0, 0)
  tlsAccept := fun _ _ => .ok 0
  tcpConnect := fun _ => .ok 0
  tlsHandshake := fun _ _ _ => .ok 0

/-- `okEnv` except that parsing the PKCS#12 bundle fails (e.g. a wrong
passphrase), with error value `7`. -/
def badIdentityEnv : TlsEnv :=
  { okEnv with identityFromPkcs12 := fun _ _ => .error 7 }

/-- C4 counterexample: with the identity bundle path absent from the
configuration, `TlsTransport::bind` does not fail with a `ConfigError` —
it does not return an `Err` of any kind; it panics on `unwrap`. -/
theorem tls_bind_missing_bundle_is_panic_not_error :
    TlsTransport.bind okEnv ⟨⟨none, none, none, none⟩, none⟩ "0.0.0.0:2334"
        = .panic
      ∧ (TlsTransport.bind okEnv ⟨⟨none, none, none, none⟩, none⟩
          "0.0.0.0:2334").isErr = false :=
  ⟨rfl, rfl⟩

/-- C4 (amended): `TlsTransport::bind` PANICS (rather than returning a
config error) when the bundle path is absent, or when the passphrase is
absent and the bundle file was read; it fails with an identity error when
the bundle cannot be parsed (e.g. wrong passphrase); and `accept` never
consults the credentials at all — its outcome is the same for any two
transports — so credential failures surface at bind time, never at accept
time. -/
theorem tls_bind_credential_failures :
    (∀ (env : TlsEnv) (t : TlsTransport) (addr : String),
        t.config.pkcs12 = none → TlsTransport.bind env t addr = .panic)
    ∧ (∀ (env : TlsEnv) (t : TlsTransport) (addr path : String) (bytes : List Nat),
        t.config.pkcs12 = some path → env.fsRead path = .ok bytes →
        t.config.pkcs12_password = none → TlsTransport.bind env t addr = .panic)
    ∧ (∀ (env : TlsEnv) (t : TlsTransport) (addr path pw : String)
          (bytes : List Nat) (e : Nat),
        t.config.pkcs12 = some path → env.fsRead path = .ok bytes →
        t.config.pkcs12_password = some pw →
        env.identityFromPkcs12 bytes pw = .error e →
        TlsTransport.bind env t addr = .err (.identityError e))
    ∧ (∀ (env : TlsEnv) (t₁ t₂ : TlsTransport) (a : Nat × Nat),
        TlsTransport.accept env t₁ a = TlsTransport.accept env t₂ a) := by
  refine ⟨?_, ?_, ?_, ?_⟩
  · intro env t addr hp
    simp [TlsTransport.bind, hp]
  · intro env t addr path bytes hp hf hw
    simp [TlsTransport.bind, hp, hf, hw]
  · intro env t addr path pw bytes e hp hf hw hi
    simp [TlsTransport.bind, hp, hf, hw, hi]
  · intro env t₁ t₂ a
    rfl

/-- Closed instance of `tls_bind_credential_failures` at concrete
configurations and oracles. -/
theorem tls_bind_credential_failures_witness :
    TlsTransport.bind okEnv ⟨⟨none, none, none, none⟩, none⟩ "0.0.0.0:2334"
        = .panic
      ∧ TlsTransport.bind okEnv
          ⟨⟨none, some "identity.pfx", none, none⟩, none⟩ "0.0.0.0:2334" = .panic
      ∧ TlsTransport.bind badIdentityEnv
          ⟨⟨none, some "identity.pfx", some "1234", none⟩, none⟩ "0.0.0.0:2334"
          = .err (.identityError 7)
      ∧ TlsTransport.accept okEnv ⟨⟨none, none, none, none⟩, none⟩ (0, 0)
          = TlsTransport.accept okEnv
              ⟨⟨none, some "identity.pfx", some "1234", none⟩, some 0⟩ (0, 0) :=
  ⟨tls_bind_credential_failures.1 okEnv _ _ rfl,
   tls_bind_credential_failures.2.1 okEnv _ "0.0.0.0:2334" "identity.pfx" []
     rfl rfl rfl,
   tls_bind_credential_failures.2.2.1 badIdentityEnv _ "0.0.0.0:2334"
     "identity.pfx" "1234" [] 7 rfl rfl rfl rfl,
   tls_bind_credential_failures.2.2.2 okEnv _ _ (0, 0)⟩

/-- C5: the client-side handshake verifies the peer against the configured
hostname override when one is present, and against the literal address
string passed to `connect` otherwise; `TlsTransport::connect` invokes the
handshake at exactly that server name. -/
theorem tls_connect_verification_hostname :
    (∀ (t : TlsTransport) (addr h : String), t.config.hostname = some h →
        TlsTransport.connectDomain t addr = h)
    ∧ (∀ (t : TlsTransport) (addr : String), t.config.hostname = none →
        TlsTransport.connectDomain t addr = addr)
    ∧ (∀ (env : TlsEnv) (t : TlsTransport) (addr : String) (conn c : Nat),
        env.tcpConnect addr = .ok conn → t.connector = some c →
        TlsTransport.connect env t addr
          = match env.tlsHandshake c (TlsTransport.connectDomain t addr) conn with
            | .error e => .err (.verificationError e)
            | .ok s => .ok s) := by
  refine ⟨?_, ?_, ?_⟩
  · intro t addr h hh
    simp [TlsTransport.connectDomain, hh]
  · intro t addr hh
    simp [TlsTransport.connectDomain, hh]
  · intro env t addr conn c hc hconn
    simp [TlsTransport.connect, hc, hconn]

/-- Closed instance of `tls_connect_verification_hostname`: the hostname
override `"0.0.0.0"` wins over the literal address, the missing override
falls back to the literal address, and `connect` queries the handshake
oracle at the resulting name. -/
theorem tls_connect_verification_hostname_witness :
    TlsTransport.connectDomain ⟨⟨none, none, none, some "0.0.0.0"⟩, some 0⟩
        "127.0.0.1:2334" = "0.0.0.0"
      ∧ TlsTransport.connectDomain ⟨⟨none, none, none, none⟩, some 0⟩
          "127.0.0.1:2334" = "127.0.0.1:2334"
      ∧ TlsTransport.connect okEnv ⟨⟨none, none, none, some "0.0.0.0"⟩, some 0⟩
          "127.0.0.1:2334"
          = match okEnv.tlsHandshake 0
              (TlsTransport.connectDomain
                ⟨⟨none, none, none, some "0.0.0.0"⟩, some 0⟩ "127.0.0.1:2334") 0 with
            | .error e => .err (.verificationError e)
            | .ok s => .ok s :=
  ⟨tls_connect_verification_hostname.1 _ "127.0.0.1:2334" "0.0.0.0" rfl,
   tls_connect_verification_hostname.2.1 _ "127.0.0.1:2334" rfl,
   tls_connect_verification_hostname.2.2 okEnv _ "127.0.0.1:2334" 0 0 rfl rfl⟩

/-- C9: with no trusted root configured, `TlsTransport::new` builds no
connector, and `connect` (once the TCP connection is up) panics on
`unwrap` of the `None` connector instead of returning an error; likewise
`bind` panics on `unwrap` when the bundle path is absent, or when the
passphrase is absent and the bundle file was read. -/
theorem tls_unwrap_panics :
    (∀ (env : TlsEnv) (cfg : TlsConfig), cfg.trusted_root = none →
        TlsTransport.new env cfg = .ok ⟨cfg, none⟩)
    ∧ (∀ (env : TlsEnv) (t : TlsTransport) (addr : String) (conn : Nat),
        t.connector = none → env.tcpConnect addr = .ok conn →
        TlsTransport.connect env t addr = .panic)
    ∧ (∀ (env : TlsEnv) (t : TlsTransport) (addr : String),
        t.config.pkcs12 = none → TlsTransport.bind env t addr = .panic)
    ∧ (∀ (env : TlsEnv) (t : TlsTransport) (addr path : String) (bytes : List Nat),
        t.config.pkcs12 = some path → env.fsRead path = .ok bytes →
        t.config.pkcs12_password = none → TlsTransport.bind env t addr = .panic) := by
  refine ⟨?_, ?_, ?_, ?_⟩
  · intro env cfg hr
    simp [TlsTransport.new, hr]
  · intro env t addr conn hc htcp
    simp [TlsTransport.connect, hc, htcp]
  · intro env t addr hp
    simp [TlsTransport.bind, hp]
  · intro env t addr path bytes hp hf hw
    simp [TlsTransport.bind, hp, hf, hw]

/-- Closed instance of `tls_unwrap_panics` at concrete configurations. -/
theorem tls_unwrap_panics_witness :
    TlsTransport.new okEnv ⟨none, none, none, none⟩
        = .ok ⟨⟨none, none, none, none⟩, none⟩
      ∧ TlsTransport.connect okEnv ⟨⟨none, none, none, none⟩, none⟩
          "127.0.0.1:2334" = .panic
      ∧ TlsTransport.bind okEnv ⟨⟨none, none, none, none⟩, none⟩
          "0.0.0.0:2334" = .panic
      ∧ TlsTransport.bind okEnv ⟨⟨none, some "identity.pfx", none, none⟩, none⟩
          "0.0.0.0:2334" = .panic :=
  ⟨tls_unwrap_panics.1 okEnv _ rfl,
   tls_unwrap_panics.2.1 okEnv _ "127.0.0.1:2334" 0 rfl rfl,
   tls_unwrap_panics.2.2.1 okEnv _ "0.0.0.0:2334" rfl,
   tls_unwrap_panics.2.2.2 okEnv _ "0.0.0.0:2334" "identity.pfx" [] rfl rfl rfl⟩

/-! ## CLI dispatch (`run` and `main` in `src/main.rs`, lines 158–182) -/

/-- A network operation a transport branch could attempt. -/
inductive NetOp
  | netBind
  | netAccept
  | netConnect
deriving DecidableEq, Repr

/-- What running one branch for a given transport does: the network
operations it attempts and the `Result` it returns (errors as the `anyhow`
message string). -/
structure TransportBehavior where
  serveRun : List NetOp × Except String Unit
  clientRun : List NetOp × Except String Unit

/-- `run`: dispatch on the mode string — `"serve"` runs `serve_echo`,
`"client"` runs `send_hello`, anything else returns
`Err(anyhow!("unknown mode"))` without touching either branch. -/
def run (t : TransportBehavior) (mode : String) : List NetOp × Except String Unit :=
  if mode = "serve" then t.serveRun
  else if mode = "client" then t.clientRun
  else ([], .error "unknown mode")

/-- `mainEntry` (the source's `main`): dispatch on the transport string — `"tcp"` runs `run` on the
TCP transport; `"tls"` first awaits `TlsTransport::new(config)?` (whose
failure `tlsNew = Err e` is propagated before the mode is examined) and
then runs `run` on the TLS transport; anything else returns
`Err(anyhow!("unknown transport"))`. -/
def mainEntry (tcpT tlsT : TransportBehavior) (tlsNew : Except String Unit)
    (t mode : String) : List NetOp × Except String Unit :=
  if t = "tcp" then run tcpT mode
  else if t = "tls" then
    match tlsNew with
    | .error e => ([], .error e)
    | .ok _ => run tlsT mode
  else ([], .error "unknown transport")

/-- A concrete pair of branch behaviours for witnesses: serving binds and
accepts, the client connects. -/
def sampleBehavior : TransportBehavior where
  serveRun := ([.netBind, .netAccept], .ok ())
  clientRun := ([.netConnect], .ok ())

/-- C8 counterexample: with the transport selector `"tls"` and the invalid
mode `"bogus"`, when the TLS constructor fails (here: the trusted-root file
cannot be read), `main` fails with the constructor's error — not with an
unknown-mode or unknown-transport error (no network operation is attempted
either). -/
theorem cli_dispatch_counterexample :
    mainEntry sampleBehavior sampleBehavior
        (.error "Failed to read ca-cert.pem") "tls" "bogus"
        = ([], .error "Failed to read ca-cert.pem")
      ∧ "Failed to read ca-cert.pem" ≠ "unknown mode"
      ∧ "Failed to read ca-cert.pem" ≠ "unknown transport" :=
  ⟨rfl, by decide, by decide⟩

/-- C8 (amended): an invalid transport selector always fails with the
unknown-transport error; an invalid mode fails with the unknown-mode error
when the transport is `"tcp"`, or `"tls"` with a successfully constructed
transport, while with `"tls"` and a failing constructor it fails with the
constructor's error instead; in every such case no bind, accept or connect
is attempted. -/
theorem cli_dispatch :
    (∀ (tcpT tlsT : TransportBehavior) (n : Except String Unit) (t mode : String),
        t ≠ "tcp" → t ≠ "tls" →
        mainEntry tcpT tlsT n t mode = ([], .error "unknown transport"))
    ∧ (∀ (tcpT tlsT : TransportBehavior) (n : Except String Unit) (mode : String),
        mode ≠ "serve" → mode ≠ "client" →
        mainEntry tcpT tlsT n "tcp" mode = ([], .error "unknown mode"))
    ∧ (∀ (tcpT tlsT : TransportBehavior) (mode : String),
        mode ≠ "serve" → mode ≠ "client" →
        mainEntry tcpT tlsT (.ok ()) "tls" mode = ([], .error "unknown mode"))
    ∧ (∀ (tcpT tlsT : TransportBehavior) (e : String) (mode : String),
        mainEntry tcpT tlsT (.error e) "tls" mode = ([], .error e)) := by
  refine ⟨?_, ?_, ?_, ?_⟩
  · intro tcpT tlsT n t mode h1 h2
    simp [mainEntry, h1, h2]
  · intro tcpT tlsT n mode h1 h2
    simp [mainEntry, run, h1, h2]
  · intro tcpT tlsT mode h1 h2
    simp [mainEntry, run, h1, h2]
  · intro tcpT tlsT e mode
    simp [mainEntry]

/-- Closed instance of `cli_dispatch` at concrete invalid selectors. -/
theorem cli_dispatch_witness :
    mainEntry sampleBehavior sampleBehavior (.ok ()) "udp" "serve"
        = ([], .error "unknown transport")
      ∧ mainEntry sampleBehavior sampleBehavior (.ok ()) "tcp" "bogus"
          = ([], .error "unknown mode")
      ∧ mainEntry sampleBehavior sampleBehavior (.ok ()) "tls" "bogus"
          = ([], .error "unknown mode")
      ∧ mainEntry sampleBehavior sampleBehavior (.error "boom") "tls" "serve"
          = ([], .error "boom") :=
  ⟨cli_dispatch.1 sampleBehavior sampleBehavior (.ok ()) "udp" "serve"
     (by decide) (by decide),
   cli_dispatch.2.1 sampleBehavior sampleBehavior (.ok ()) "bogus"
     (by decide) (by decide),
   cli_dispatch.2.2.1 sampleBehavior sampleBehavior "bogus" (by decide) (by decide),
   cli_dispatch.2.2.2 sampleBehavior sampleBehavior "boom" "serve"⟩
